import Mathlib

/-!
Shallow embedding of the `Grid` state/model layer of the chaosPrimer
repository (`src/grid.py`). The model state is `Grid.height` and
`Grid.grid`; the matplotlib/tkinter handles (`fig`, `ax`) are external
presentation resources and are not part of the data model. File I/O is
embedded at the payload level: `save_state` produces the JSON record it
writes, `load_state` consumes a `LoadInput` describing what reading the
source yields (missing file, parse failure, or any parsed JSON value —
an object with optional `height`/`grid` fields, a string, an array, a
number, a boolean, or null), and an uncaught exception escaping
`load_state` is an `Except.error` result.
-/

namespace ChaosPrimer

/-- `BoxState.ON` from `grid.py` (the integer 1). -/
def ON : Int := 1

/-- `BoxState.OFF` from `grid.py` (the integer 0). -/
def OFF : Int := 0

/-- The model state of `Grid`: the `height` attribute (a Python int,
unbounded) and the `grid` attribute (a Python list of ints). -/
structure Grid where
  height : Int
  grid : List Int
  deriving DecidableEq, Repr

/-- `Grid.__init__(height)`: stores `height` and builds
`[BoxState.OFF for _ in range(height)]`; Python's `range` of a negative
int is empty, which `Int.toNat` models (negative clamps to zero). -/
def Grid.init (height : Int) : Grid :=
  { height := height, grid := List.replicate height.toNat OFF }

/-- Shallow copy of a Python list (`list.copy()`): rebuilds the spine. -/
def listCopy : List Int → List Int
  | [] => []
  | x :: xs => x :: listCopy xs

/-- `Grid.toggle_box(index)`: raises `IndexError` (modelled as `none`,
the caller's state unchanged) unless `0 <= index < len(self.grid)`;
otherwise sets `self.grid[index]` to `ON` if it was `OFF`, else `OFF`. -/
def Grid.toggle_box (g : Grid) (index : Int) : Option Grid :=
  if 0 ≤ index ∧ index < (g.grid.length : Int) then
    let i := index.toNat
    let v := g.grid.getD i OFF
    some { g with grid := g.grid.set i (if v = OFF then ON else OFF) }
  else
    none

/-- A matplotlib button-press event as `toggle_box_at_position` inspects
it: `none` when `event.inaxes is None` or `xdata`/`ydata` is `None`,
otherwise the data-space coordinates (floats, modelled as rationals). -/
def ClickEvent : Type := Option (ℚ × ℚ)

/-- `Grid.toggle_box_at_position(event)`: returns silently when the
event carries no data coordinates; otherwise computes
`index = int(x_data // 20)` (floor division) and toggles only when
`0 <= index < len(self.grid)`. Never raises to the caller. -/
def Grid.toggle_box_at_position (g : Grid) (event : ClickEvent) : Grid :=
  match event with
  | none => g
  | some (x, _y) =>
    let index : Int := ⌊x / 20⌋
    if 0 ≤ index ∧ index < (g.grid.length : Int) then
      match g.toggle_box index with
      | some g2 => g2
      | none => g
    else
      g

/-- The JSON record read back from a state file, as `load_state` sees it
after `json.load`: each of the two keys it checks may be present or
absent. -/
structure Payload where
  height : Option Int
  grid : Option (List Int)
  deriving DecidableEq, Repr

/-- `Grid.save_state(filename)`, successful-I/O path: serializes
`{'height': self.height, 'grid': self.grid}` and returns `True`.
Does not mutate the model. -/
def Grid.save_state (g : Grid) : Bool × Payload :=
  (true, { height := some g.height, grid := some g.grid })

/-- Prefix test over character lists, the base step of Python's
substring-membership operator on strings. -/
def charListStartsWith : List Char → List Char → Bool
  | _, [] => true
  | [], _ :: _ => false
  | c :: cs, k :: ks => c == k && charListStartsWith cs ks

/-- Substring containment at any offset, over character lists. -/
def charListHasSub : List Char → List Char → Bool
  | [], key => charListStartsWith [] key
  | c :: cs, key => charListStartsWith (c :: cs) key || charListHasSub cs key

/-- Python `key in s` for strings `s`: substring containment. -/
def strHasSub (s key : String) : Bool :=
  charListHasSub s.toList key.toList

/-- A value `json.load` can hand back: a JSON object (of which only the
two keys `load_state` probes are retained, typed as the repository
writes them), a string, an array (of which only the string elements are
retained — Python's `'height' in lst` compares elements for equality
and a non-string element never equals the probed key), a number (int or
float, as a rational), a boolean, or null. -/
inductive ParsedJson where
  | record : Payload → ParsedJson
  | text : String → ParsedJson
  | array : List String → ParsedJson
  | number : ℚ → ParsedJson
  | boolean : Bool → ParsedJson
  | null : ParsedJson
  deriving DecidableEq, Repr

/-- What reading the load source yields: the file does not exist, the
file exists but `json.load` raises, or the parsed JSON value. -/
inductive LoadInput where
  | missing : LoadInput
  | parseError : LoadInput
  | parsed : ParsedJson → LoadInput
  deriving DecidableEq, Repr

/-- `Grid.load_state(filename)`. Returns `False` (model unchanged) when
the file is missing, `json.load` raises, or the membership test
`'height' in state_data and 'grid' in state_data` runs without raising
and comes out false (an object lacking a key; a string without both
substrings; an array without both elements). Commits both fields and
returns `True` when the payload is an object carrying both keys — with
no further validation of the committed values. On every other payload
the code raises an uncaught `TypeError`, modelled as `Except.error ()`
with the model untouched (the raise precedes both assignments):
membership on a number, boolean or null raises at `grid.py:174`, and
subscripting a string or array payload that passed the membership test
raises at `grid.py:175`; `TypeError` is absent from the `except` tuple
at `grid.py:183`, so it propagates to the caller. -/
def Grid.load_state (g : Grid) (input : LoadInput) : Except Unit (Bool × Grid) :=
  match input with
  | .missing => .ok (false, g)
  | .parseError => .ok (false, g)
  | .parsed (.record p) =>
    match p.height, p.grid with
    | some h, some cells => .ok (true, { height := h, grid := cells })
    | _, _ => .ok (false, g)
  | .parsed (.text s) =>
    if strHasSub s "height" && strHasSub s "grid" then .error () else .ok (false, g)
  | .parsed (.array xs) =>
    if xs.contains "height" && xs.contains "grid" then .error () else .ok (false, g)
  | .parsed (.number _) => .error ()
  | .parsed (.boolean _) => .error ()
  | .parsed .null => .error ()

/-- `Grid.get_state()`: returns `self.grid.copy()`. -/
def Grid.get_state (g : Grid) : List Int :=
  listCopy g.grid

/-- `Grid.set_state(new_state)`: returns `False` (model unchanged) when
`len(new_state) != self.height` or some element is neither `ON` nor
`OFF`; otherwise replaces `self.grid` with `new_state.copy()` and
returns `True`. -/
def Grid.set_state (g : Grid) (new_state : List Int) : Bool × Grid :=
  if (new_state.length : Int) ≠ g.height then
    (false, g)
  else if new_state.all (fun s => s = ON ∨ s = OFF) then
    (true, { g with grid := listCopy new_state })
  else
    (false, g)

/-- One model-mutating operation of the claims' operation alphabet
(construct is the trace's starting point, not an `Op`). `save` commits
nothing to the model. -/
inductive Op where
  | toggle : Int → Op
  | setState : List Int → Op
  | save : Op
  | load : LoadInput → Op
  deriving DecidableEq, Repr

/-- Apply one operation, committing only on success: a raising
`toggle_box`, a failing `set_state` and a failing or raising
`load_state` leave the state as it was; `save_state` never mutates. -/
def applyOp (g : Grid) (op : Op) : Grid :=
  match op with
  | .toggle i => (g.toggle_box i).getD g
  | .setState s => (g.set_state s).2
  | .save => g
  | .load input =>
    match g.load_state input with
    | .ok (_, g2) => g2
    | .error _ => g

/-- Run a sequence of operations from a starting state. -/
def runOps (g : Grid) (ops : List Op) : Grid :=
  ops.foldl applyOp g

/-- The spec's first data-model invariant: `len(cells) == length`. -/
def LengthOk (g : Grid) : Prop :=
  (g.grid.length : Int) = g.height

/-- The spec's second data-model invariant: every cell is ON or OFF. -/
def CellsOk (g : Grid) : Prop :=
  ∀ c ∈ g.grid, c = ON ∨ c = OFF

instance (g : Grid) : Decidable (LengthOk g) := by
  unfold LengthOk; infer_instance

instance (g : Grid) : Decidable (CellsOk g) := by
  unfold CellsOk; infer_instance

/-- Per-operation side condition under which `load` happens to preserve
the length invariant: the committed payload's `grid` list has as many
entries as its `height` field says. `load_state` itself never checks
this. All other operations place no condition. -/
def opLengthOk : Op → Bool
  | .load (.parsed (.record ⟨some h, some cells⟩)) => (cells.length : Int) == h
  | _ => true

/-- Per-operation side condition under which `load` happens to preserve
the ON/OFF invariant: the committed payload's `grid` entries are all
`ON` or `OFF`. `load_state` itself never checks this. -/
def opCellsOk : Op → Bool
  | .load (.parsed (.record ⟨some _, some cells⟩)) => cells.all (fun c => c == ON || c == OFF)
  | _ => true

/-! ### Helper lemmas -/

theorem listCopy_eq (xs : List Int) : listCopy xs = xs := by
  induction xs with
  | nil => rfl
  | cons x xs ih => simp [listCopy, ih]

theorem set_getD_self (xs : List Int) (i : Nat) (d : Int) (hi : i < xs.length) :
    xs.set i (xs.getD i d) = xs := by
  apply List.ext_getElem?
  intro j
  rw [List.getElem?_set]
  split
  · next h =>
      subst h
      simp [List.getD_eq_getElem?_getD, List.getElem?_eq_getElem hi]
  · rfl

theorem getD_set_self (xs : List Int) (i : Nat) (d v : Int) (hi : i < xs.length) :
    (xs.set i v).getD i d = v := by
  simp [List.getD_eq_getElem?_getD, List.getElem?_set, hi]

theorem getD_mem (xs : List Int) (i : Nat) (d : Int) (hi : i < xs.length) :
    xs.getD i d ∈ xs := by
  rw [List.getD_eq_getElem?_getD, List.getElem?_eq_getElem hi]
  exact List.getElem_mem hi

/-! ### Claim theorems -/

/-- C10: for every negative `length`, `Grid.__init__` succeeds with no
error, stores the negative value as `height`, and (because `range` of a
negative int is empty) leaves `grid` empty, so `len(cells) == length`
fails immediately after construction. -/
theorem C10_negative_length_construct (h : Int) (hneg : h < 0) :
    (Grid.init h).height = h ∧ (Grid.init h).grid = [] ∧ ¬ LengthOk (Grid.init h) := by
  have hz : h.toNat = 0 := Int.toNat_of_nonpos (le_of_lt hneg)
  refine ⟨rfl, ?_, ?_⟩
  · simp [Grid.init, hz]
  · simp only [LengthOk, Grid.init, hz, List.length_replicate]
    omega

/-- C10 witness at length `-3`. -/
theorem C10_negative_length_construct_witness :
    (Grid.init (-3)).height = -3 ∧ (Grid.init (-3)).grid = [] ∧ ¬ LengthOk (Grid.init (-3)) :=
  C10_negative_length_construct (-3) (by decide)

/-- C6: on a model satisfying the spec's data-model invariant
`len(cells) == length`, `toggle_box` with `index < 0` or
`index ≥ length` raises `IndexError` (modelled as `none`) before any
mutation, so the caller's `cells` and `length` are exactly as before. -/
theorem C6_toggle_out_of_range (g : Grid) (index : Int)
    (hInv : LengthOk g) (h : index < 0 ∨ g.height ≤ index) :
    g.toggle_box index = none := by
  have hc : ¬(0 ≤ index ∧ index < (g.grid.length : Int)) := by
    unfold LengthOk at hInv
    omega
  simp only [Grid.toggle_box, if_neg hc]

/-- C6 witness: a fresh grid of length 3 with indices `-1` and `5`. -/
theorem C6_toggle_out_of_range_witness :
    (Grid.init 3).toggle_box 5 = none ∧ (Grid.init 3).toggle_box (-1) = none :=
  ⟨C6_toggle_out_of_range (Grid.init 3) 5 (by decide) (by decide),
   C6_toggle_out_of_range (Grid.init 3) (-1) (by decide) (by decide)⟩

/-- C9: `get_state` always succeeds (it is a total pure function of the
model, so the model is left unchanged), returns a sequence equal to
`cells` — built as a structural copy (`listCopy`) of the internal list,
which is how the embedding renders `list.copy()`'s independence from
the model's own storage — and returns the empty sequence when
`length == 0` on any model satisfying `len(cells) == length`. -/
theorem C9_get_state_copy (g : Grid) (hInv : LengthOk g) :
    g.get_state = listCopy g.grid ∧ g.get_state = g.grid ∧
    (g.height = 0 → g.get_state = []) := by
  refine ⟨rfl, listCopy_eq g.grid, ?_⟩
  intro h0
  have hlen : g.grid.length = 0 := by
    unfold LengthOk at hInv
    omega
  rw [Grid.get_state, listCopy_eq, List.length_eq_zero.mp hlen]

/-- C9 witness at a toggled grid of length 2 and an empty grid. -/
theorem C9_get_state_copy_witness :
    ((Grid.init 2).get_state = listCopy (Grid.init 2).grid ∧
      (Grid.init 2).get_state = (Grid.init 2).grid ∧
      ((Grid.init 2).height = 0 → (Grid.init 2).get_state = [])) ∧
    (Grid.init 0).get_state = [] :=
  ⟨C9_get_state_copy (Grid.init 2) (by decide),
   ((C9_get_state_copy (Grid.init 0) (by decide)).2.2 (by decide))⟩

/-- C5: saving any grid (in particular any grid whose cells are all
ON/OFF) and loading the produced record into a freshly constructed grid
of the same length succeeds and reproduces the original `get_state`. -/
theorem C5_save_load_roundtrip (g : Grid) (hcells : CellsOk g) :
    ∃ g2, (Grid.init g.height).load_state
        (LoadInput.parsed (ParsedJson.record (g.save_state).2)) = Except.ok (true, g2) ∧
      g2.get_state = g.get_state := by
  exact ⟨Grid.mk g.height g.grid, rfl, rfl⟩

/-- C5 witness: the spec's concrete instance — length 5, indices 0, 2
and 4 toggled, saved and loaded into a fresh grid of the same length. -/
theorem C5_save_load_roundtrip_witness :
    ∃ g2, (Grid.init (runOps (Grid.init 5)
          [Op.toggle 0, Op.toggle 2, Op.toggle 4]).height).load_state
        (LoadInput.parsed (ParsedJson.record ((runOps (Grid.init 5)
          [Op.toggle 0, Op.toggle 2, Op.toggle 4]).save_state).2)) = Except.ok (true, g2) ∧
      g2.get_state = (runOps (Grid.init 5) [Op.toggle 0, Op.toggle 2, Op.toggle 4]).get_state :=
  C5_save_load_roundtrip (runOps (Grid.init 5) [Op.toggle 0, Op.toggle 2, Op.toggle 4])
    (by decide)

/-- C4: `set_state(new_cells)` returns `True` — and then `get_state()`
equals `new_cells`, stored as a structural copy, with `height`
untouched — exactly when `len(new_cells) == length` and every element
is `ON` or `OFF`; in every other case it returns `False` and leaves
the model completely unchanged, raising nothing. -/
theorem C4_set_state_contract (g : Grid) (new_cells : List Int) :
    ((g.set_state new_cells).1 = true ↔
      ((new_cells.length : Int) = g.height ∧ ∀ c ∈ new_cells, c = ON ∨ c = OFF)) ∧
    ((g.set_state new_cells).1 = true →
      (g.set_state new_cells).2 = { height := g.height, grid := new_cells } ∧
      (g.set_state new_cells).2.get_state = new_cells) ∧
    ((g.set_state new_cells).1 = false → (g.set_state new_cells).2 = g) := by
  unfold Grid.set_state
  split
  · next hne =>
      exact ⟨⟨fun hf => (Bool.false_ne_true hf).elim, fun hval => (hne hval.1).elim⟩,
        fun hf => (Bool.false_ne_true hf).elim, fun _ => rfl⟩
  · next hlen =>
      rw [not_not] at hlen
      split
      · next hall =>
          rw [List.all_eq_true] at hall
          refine ⟨⟨fun _ => ⟨hlen, fun c hc => by simpa using hall c hc⟩, fun _ => rfl⟩,
            fun _ => ⟨?_, ?_⟩, fun hf => absurd hf (by simp)⟩
          · rw [listCopy_eq]
          · simp [Grid.get_state, listCopy_eq]
      · next hall =>
          refine ⟨⟨fun hf => (Bool.false_ne_true hf).elim, fun hval => ?_⟩,
            fun hf => (Bool.false_ne_true hf).elim, fun _ => rfl⟩
          refine absurd ?_ hall
          rw [List.all_eq_true]
          intro c hc
          simpa using hval.2 c hc

theorem init_lengthOk (h : Int) (hh : 0 ≤ h) : LengthOk (Grid.init h) := by
  simp only [LengthOk, Grid.init, List.length_replicate]
  omega

theorem init_cellsOk (h : Int) : CellsOk (Grid.init h) := by
  intro c hc
  right
  exact List.eq_of_mem_replicate hc

theorem applyOp_lengthOk (g : Grid) (op : Op) (hg : LengthOk g)
    (hop : opLengthOk op = true) : LengthOk (applyOp g op) := by
  unfold LengthOk at *
  cases op with
  | toggle i =>
      simp only [applyOp, Grid.toggle_box]
      split
      · simpa using hg
      · exact hg
  | setState s =>
      simp only [applyOp, Grid.set_state]
      split
      · exact hg
      · next hlen =>
          rw [not_not] at hlen
          split
          · simpa [listCopy_eq] using hlen
          · exact hg
  | save => exact hg
  | load input =>
      rcases input with _ | _ | (⟨_ | ph, _ | pc⟩ | s | xs | q | b | _)
      · exact hg
      · exact hg
      · simp_all [applyOp, Grid.load_state]
      · simp_all [applyOp, Grid.load_state]
      · simp_all [applyOp, Grid.load_state]
      · simp_all [applyOp, Grid.load_state, opLengthOk]
      · cases hc : strHasSub s "height" && strHasSub s "grid" <;>
          simpa [applyOp, Grid.load_state, hc] using hg
      · by_cases hmem : ("height" ∈ xs ∧ "grid" ∈ xs) <;>
          simpa [applyOp, Grid.load_state, hmem] using hg
      · simp_all [applyOp, Grid.load_state]
      · simp_all [applyOp, Grid.load_state]
      · simp_all [applyOp, Grid.load_state]

theorem applyOp_cellsOk (g : Grid) (op : Op) (hg : CellsOk g)
    (hop : opCellsOk op = true) : CellsOk (applyOp g op) := by
  cases op with
  | toggle i =>
      simp only [applyOp, Grid.toggle_box]
      split
      · intro c hc
        rcases List.mem_or_eq_of_mem_set hc with hm | he
        · exact hg c hm
        · subst he
          split
          · left; rfl
          · right; rfl
      · exact hg
  | setState s =>
      simp only [applyOp, Grid.set_state]
      split
      · exact hg
      · split
        · next hall =>
            rw [List.all_eq_true] at hall
            intro c hc
            rw [listCopy_eq] at hc
            simpa using hall c hc
        · exact hg
  | save => exact hg
  | load input =>
      rcases input with _ | _ | (⟨_ | ph, _ | pc⟩ | s | xs | q | b | _)
      · exact hg
      · exact hg
      · simp_all [applyOp, Grid.load_state]
      · simp_all [applyOp, Grid.load_state]
      · simp_all [applyOp, Grid.load_state]
      · simp_all [applyOp, Grid.load_state, opCellsOk, CellsOk, List.all_eq_true]
      · cases hc : strHasSub s "height" && strHasSub s "grid" <;>
          simpa [applyOp, Grid.load_state, hc] using hg
      · by_cases hmem : ("height" ∈ xs ∧ "grid" ∈ xs) <;>
          simpa [applyOp, Grid.load_state, hmem] using hg
      · simp_all [applyOp, Grid.load_state]
      · simp_all [applyOp, Grid.load_state]
      · simp_all [applyOp, Grid.load_state]

theorem runOps_lengthOk (g : Grid) (ops : List Op) (hg : LengthOk g)
    (hops : ∀ op ∈ ops, opLengthOk op = true) : LengthOk (runOps g ops) := by
  induction ops generalizing g with
  | nil => exact hg
  | cons op ops ih =>
      exact ih (applyOp g op)
        (applyOp_lengthOk g op hg (hops op (List.mem_cons_self op ops)))
        (fun o ho => hops o (List.mem_cons_of_mem op ho))

theorem runOps_cellsOk (g : Grid) (ops : List Op) (hg : CellsOk g)
    (hops : ∀ op ∈ ops, opCellsOk op = true) : CellsOk (runOps g ops) := by
  induction ops generalizing g with
  | nil => exact hg
  | cons op ops ih =>
      exact ih (applyOp g op)
        (applyOp_cellsOk g op hg (hops op (List.mem_cons_self op ops)))
        (fun o ho => hops o (List.mem_cons_of_mem op ho))

/-- C1 counterexample: loading the record `{"height": 5, "grid": [0, 0]}`
into a freshly constructed grid of length 5 is a successful load (it
returns `True`), yet it leaves `len(cells) = 2` while `length = 5`:
`load_state` checks only that the two keys are present, never that the
loaded list's size matches the loaded length. -/
theorem C1_length_invariant_counterexample :
    (Grid.init 5).load_state (LoadInput.parsed (ParsedJson.record ⟨some 5, some [OFF, OFF]⟩))
      = Except.ok (true, Grid.mk 5 [OFF, OFF]) ∧
    ¬ LengthOk (runOps (Grid.init 5)
      [Op.load (LoadInput.parsed (ParsedJson.record ⟨some 5, some [OFF, OFF]⟩))]) :=
  ⟨rfl, by decide⟩

/-- C1 (amended): `len(cells) == length` holds after every successful
construct (with `length ≥ 0`), toggle, set_state and save, and after
every successful load whose committed payload itself satisfies
`len(grid) == height`; the restriction on load payloads is forced
because `load_state` validates only the presence of the two keys. -/
theorem C1_length_invariant (h : Int) (hh : 0 ≤ h) (ops : List Op)
    (hops : ∀ op ∈ ops, opLengthOk op = true) :
    LengthOk (runOps (Grid.init h) ops) :=
  runOps_lengthOk (Grid.init h) ops (init_lengthOk h hh) hops

/-- C1 witness: a trace of length 5 exercising toggle, set_state, save
and a length-consistent load. -/
theorem C1_length_invariant_witness :
    LengthOk (runOps (Grid.init 5)
      [Op.toggle 0, Op.setState [1, 1, 0, 0, 1], Op.save,
       Op.load (LoadInput.parsed (ParsedJson.record ⟨some 3, some [1, 0, 1]⟩)), Op.toggle 2]) :=
  C1_length_invariant 5 (by decide) _ (by decide)

/-- C2 counterexample: loading the record `{"height": 1, "grid": [2]}`
into a freshly constructed grid of length 1 is a successful load (it
returns `True`), yet it puts the value 2 — neither `ON` nor `OFF` —
into `cells`: `load_state` never re-validates the loaded cell values. -/
theorem C2_cells_invariant_counterexample :
    (Grid.init 1).load_state (LoadInput.parsed (ParsedJson.record ⟨some 1, some [2]⟩))
      = Except.ok (true, Grid.mk 1 [2]) ∧
    ¬ CellsOk (runOps (Grid.init 1)
      [Op.load (LoadInput.parsed (ParsedJson.record ⟨some 1, some [2]⟩))]) :=
  ⟨rfl, by decide⟩

/-- C2 (amended): every element of `cells` is `ON` or `OFF` after every
successful construct (with `length ≥ 0`), toggle, set_state and save,
and after every successful load whose committed payload's `grid`
entries are all `ON` or `OFF`; the restriction on load payloads is
forced because `load_state` never re-validates loaded cell values. -/
theorem C2_cells_invariant (h : Int) (hh : 0 ≤ h) (ops : List Op)
    (hops : ∀ op ∈ ops, opCellsOk op = true) :
    CellsOk (runOps (Grid.init h) ops) :=
  runOps_cellsOk (Grid.init h) ops (init_cellsOk h) hops

/-- C2 witness: a trace of length 5 exercising toggle, set_state, save
and a load whose payload holds only ON/OFF values. -/
theorem C2_cells_invariant_witness :
    CellsOk (runOps (Grid.init 5)
      [Op.toggle 0, Op.setState [1, 1, 0, 0, 1], Op.save,
       Op.load (LoadInput.parsed (ParsedJson.record ⟨some 2, some [1, 0]⟩)), Op.toggle 1]) :=
  C2_cells_invariant 5 (by decide) _ (by decide)

/-- C4 witness: the contract instantiated on a length-2 grid with the
valid state `[1, 0]`. -/
theorem C4_set_state_contract_witness :
    (((Grid.init 2).set_state [1, 0]).1 = true ↔
      ((([1, 0] : List Int).length : Int) = (Grid.init 2).height ∧
        ∀ c ∈ ([1, 0] : List Int), c = ON ∨ c = OFF)) ∧
    (((Grid.init 2).set_state [1, 0]).1 = true →
      ((Grid.init 2).set_state [1, 0]).2 = { height := (Grid.init 2).height, grid := [1, 0] } ∧
      ((Grid.init 2).set_state [1, 0]).2.get_state = [1, 0]) ∧
    (((Grid.init 2).set_state [1, 0]).1 = false → ((Grid.init 2).set_state [1, 0]).2 = Grid.init 2) :=
  C4_set_state_contract (Grid.init 2) [1, 0]

/-- C7: on a model satisfying both data-model invariants, for every
`index` in `[0, length)`, `toggle_box` succeeds, a second `toggle_box`
at the same index returns the whole model (its `cells` sequence and
`height`) to exactly the state before the first call, and the single
toggle flips `cells[index]` from `OFF` to `ON` or from `ON` to `OFF`. -/
theorem C7_toggle_involution (g : Grid) (index : Int)
    (hlen : LengthOk g) (hcells : CellsOk g)
    (h0 : 0 ≤ index) (h1 : index < g.height) :
    ∃ g1, g.toggle_box index = some g1 ∧
      g1.toggle_box index = some g ∧
      ((g.grid.getD index.toNat OFF = OFF ∧ g1.grid.getD index.toNat OFF = ON) ∨
       (g.grid.getD index.toNat OFF = ON ∧ g1.grid.getD index.toNat OFF = OFF)) := by
  unfold LengthOk at hlen
  have hin : 0 ≤ index ∧ index < (g.grid.length : Int) := by omega
  have hi : index.toNat < g.grid.length := by omega
  have hv : g.grid.getD index.toNat OFF = ON ∨ g.grid.getD index.toNat OFF = OFF :=
    hcells _ (getD_mem g.grid index.toNat OFF hi)
  refine ⟨Grid.mk g.height (g.grid.set index.toNat
      (if g.grid.getD index.toNat OFF = OFF then ON else OFF)), ?_, ?_, ?_⟩
  · simp only [Grid.toggle_box, if_pos hin]
  · have hin2 : 0 ≤ index ∧
        index < (((g.grid.set index.toNat
          (if g.grid.getD index.toNat OFF = OFF then ON else OFF)).length : Nat) : Int) := by
      simpa [List.length_set] using hin
    simp only [Grid.toggle_box, if_pos hin2]
    rcases hv with hON | hOFF
    · rw [hON]
      have : (ON : Int) ≠ OFF := by decide
      rw [if_neg this, getD_set_self _ _ _ _ hi, if_pos rfl, List.set_set]
      have hback : g.grid.set index.toNat ON = g.grid := by
        conv_rhs => rw [← set_getD_self g.grid index.toNat OFF hi]
        rw [hON]
      rw [hback]
    · rw [hOFF, if_pos rfl, getD_set_self _ _ _ _ hi]
      have : (ON : Int) ≠ OFF := by decide
      rw [if_neg this, List.set_set]
      have hback : g.grid.set index.toNat OFF = g.grid := by
        conv_rhs => rw [← set_getD_self g.grid index.toNat OFF hi]
        rw [hOFF]
      rw [hback]
  · rcases hv with hON | hOFF
    · right
      refine ⟨hON, ?_⟩
      rw [hON]
      have : (ON : Int) ≠ OFF := by decide
      rw [if_neg this, getD_set_self _ _ _ _ hi]
    · left
      refine ⟨hOFF, ?_⟩
      rw [hOFF, if_pos rfl, getD_set_self _ _ _ _ hi]

/-- C7 witness: a fresh grid of length 2 at index 0 (cell OFF) and a
toggled grid at index 1 (cell ON). -/
theorem C7_toggle_involution_witness :
    (∃ g1, (Grid.init 2).toggle_box 0 = some g1 ∧
      g1.toggle_box 0 = some (Grid.init 2) ∧
      (((Grid.init 2).grid.getD (0 : Int).toNat OFF = OFF ∧ g1.grid.getD (0 : Int).toNat OFF = ON) ∨
       ((Grid.init 2).grid.getD (0 : Int).toNat OFF = ON ∧
        g1.grid.getD (0 : Int).toNat OFF = OFF))) ∧
    (∃ g1, (Grid.mk 2 [0, 1]).toggle_box 1 = some g1 ∧
      g1.toggle_box 1 = some (Grid.mk 2 [0, 1]) ∧
      (((Grid.mk 2 [0, 1]).grid.getD (1 : Int).toNat OFF = OFF ∧
        g1.grid.getD (1 : Int).toNat OFF = ON) ∨
       ((Grid.mk 2 [0, 1]).grid.getD (1 : Int).toNat OFF = ON ∧
        g1.grid.getD (1 : Int).toNat OFF = OFF))) :=
  ⟨C7_toggle_involution (Grid.init 2) 0 (by decide) (by decide) (by decide) (by decide),
   C7_toggle_involution (Grid.mk 2 [0, 1]) 1 (by decide) (by decide) (by decide) (by decide)⟩

/-- C8: on a model satisfying `len(cells) == length`, a click event
without data coordinates is ignored; a click at data coordinate
`(x, y)` targets `index = ⌊x / 20⌋`, and `toggle_box index` is applied
exactly when `0 ≤ index < length` — otherwise the click changes
nothing and raises nothing. -/
theorem C8_click_to_index (g : Grid) (x y : ℚ) (hInv : LengthOk g) :
    g.toggle_box_at_position none = g ∧
    (0 ≤ ⌊x / 20⌋ ∧ ⌊x / 20⌋ < g.height →
      ∃ g2, g.toggle_box ⌊x / 20⌋ = some g2 ∧
        g.toggle_box_at_position (some (x, y)) = g2) ∧
    (¬(0 ≤ ⌊x / 20⌋ ∧ ⌊x / 20⌋ < g.height) →
      g.toggle_box_at_position (some (x, y)) = g) := by
  unfold LengthOk at hInv
  refine ⟨rfl, ?_, ?_⟩
  · intro hin
    have hin2 : 0 ≤ ⌊x / 20⌋ ∧ ⌊x / 20⌋ < (g.grid.length : Int) := by omega
    refine ⟨Grid.mk g.height (g.grid.set (⌊x / 20⌋ : Int).toNat
        (if g.grid.getD (⌊x / 20⌋ : Int).toNat OFF = OFF then ON else OFF)), ?_, ?_⟩
    · simp only [Grid.toggle_box, if_pos hin2]
    · simp only [Grid.toggle_box_at_position]
      rw [if_pos hin2]
      simp only [Grid.toggle_box, if_pos hin2]
  · intro hout
    have hout2 : ¬(0 ≤ ⌊x / 20⌋ ∧ ⌊x / 20⌋ < (g.grid.length : Int)) := by omega
    simp only [Grid.toggle_box_at_position]
    rw [if_neg hout2]

/-- C8 witness: the spec's concrete clicks on a fresh grid of length 5 —
`x = 45` maps to index 2 (`⌊45/20⌋ = 2`) and toggles it, while `x = -5`
maps to index `-1` and is ignored. -/
theorem C8_click_to_index_witness :
    (⌊(45 : ℚ) / 20⌋ : Int) = 2 ∧
    (Grid.init 5).toggle_box_at_position (some (45, 0)) = Grid.mk 5 [0, 0, 1, 0, 0] ∧
    (⌊(-5 : ℚ) / 20⌋ : Int) = -1 ∧
    (Grid.init 5).toggle_box_at_position (some (-5, 0)) = Grid.init 5 := by
  have hf : (⌊(45 : ℚ) / 20⌋ : Int) = 2 := by norm_num
  have hg : (⌊(-5 : ℚ) / 20⌋ : Int) = -1 := by norm_num
  refine ⟨hf, ?_, hg, ?_⟩
  · obtain ⟨-, hinr, -⟩ := C8_click_to_index (Grid.init 5) 45 0 (by decide)
    obtain ⟨g2, h2, h3⟩ := hinr (by rw [hf]; decide)
    rw [hf] at h2
    have hval : (Grid.init 5).toggle_box 2 = some (Grid.mk 5 [0, 0, 1, 0, 0]) := by decide
    rw [hval] at h2
    rw [h3, ← Option.some_inj, ← h2]
  · obtain ⟨-, -, hout⟩ := C8_click_to_index (Grid.init 5) (-5) 0 (by decide)
    exact hout (by rw [hg]; decide)

end ChaosPrimer
